import Mathlib

/-!
# Verification of the ShipEngine IPaaS SDK core pattern

Shallow embedding, in Lean 4, of the validation / freeze / serialize /
method-wrapper pattern of the ShipEngine IPaaS SDK, together with proofs of
the testable properties stated in its specification.

The development has four parts:

1. a small model of the JavaScript object runtime (own properties with
   enumerability flags, `Object.freeze`, property assignment and deletion)
   in which `hideAndFreeze` (src/utils, part_000 lines 33-56) is embedded;
2. the eight carrier operation wrappers of the `Carrier` class
   (part_002 lines 357-549), embedded with explicit `Except` error flow and
   an invocation counter for the user-supplied function;
3. a typed model of the `Carrier` constructor and `toJSON`
   (part_002 lines 286-350), parametric in the child-entity types whose
   classes live outside the analysed sources;
4. the `DeliveryService.serviceArea` getter
   (src/shipping-provider/delivery-service.ts lines 112-128).
-/

namespace IPaaS

/-! ## Part 1: the JavaScript object model and `hideAndFreeze` -/

/-- An own-property key of a JavaScript object: a string key or a symbol. -/
inductive JSKey where
  | str (s : String)
  | sym (id : Nat)
deriving DecidableEq, Repr

/-- A JavaScript value, as far as the freezing logic can observe it:
primitives, `Buffer` instances (whose `typeof` is `"object"`), ordinary
objects and functions.  Objects, functions and Buffers carry their frozen
flag — only an empty Buffer can ever be frozen, since `Object.freeze` throws
on an array-buffer view with elements — and objects and functions carry
their ordered own-property list; each property is
`(key, enumerable, value)`. -/
inductive JSValue where
  | undef
  | prim (s : String)
  | buffer (frozen : Bool) (bytes : List Nat)
  | obj (frozen : Bool) (props : List (JSKey × Bool × JSValue))
  | fn (frozen : Bool) (props : List (JSKey × Bool × JSValue))
deriving Repr

/-- An ordered own-property list: `(key, enumerable, value)` triples. -/
abbrev JSProps := List (JSKey × Bool × JSValue)

/-- Test whether `typeof v` is `"object"` or `"function"` (the test on part_000 line 39;
note that a `Buffer` is an object). -/
def typeofObjOrFn : JSValue → Bool
  | .obj _ _ => true
  | .fn _ _ => true
  | .buffer _ _ => true
  | _ => false

/-- Test `v instanceof Buffer` (part_000 line 42). -/
def isBuffer : JSValue → Bool
  | .buffer _ _ => true
  | _ => false

/-- Embedding of `Object.freeze(v)`: sets the frozen flag of an object or
function and is a no-op on primitives; on a `Buffer` it throws a `TypeError`
when the buffer has elements — array-buffer views with elements cannot be
made read-only, which is why part_000 lines 40-42 guard against Buffers —
and freezes an empty one.  `none` models the thrown `TypeError`. -/
def jsFreeze : JSValue → Option JSValue
  | .obj _ ps => some (.obj true ps)
  | .fn _ ps => some (.fn true ps)
  | .buffer _ [] => some (.buffer true [])
  | .buffer _ (_ :: _) => none
  | v => some v

/-- Result of `Object.freeze(v)` at the call sites where it cannot throw:
the total restriction of `jsFreeze`, used where the source guards against
`Buffer` values (part_000 line 42) before freezing, and where it freezes a
plain entity object (delivery-service.ts line 167).  The fallback branch —
a non-empty `Buffer`, on which `Object.freeze` would throw — is unreachable
at those call sites. -/
def freezeTop (v : JSValue) : JSValue :=
  (jsFreeze v).getD v

/-- Embedding of `Object.isFrozen(v)`: primitives are trivially frozen; a
Buffer only if it has been frozen, which is possible only when it is
empty. -/
def isFrozenVal : JSValue → Bool
  | .obj f _ => f
  | .fn f _ => f
  | .buffer f _ => f
  | _ => true

/-- Phase 1 of `hideAndFreeze` (part_000 lines 35-46): iterate over
`Object.entries(obj)` — the enumerable string-keyed own properties — and
`Object.freeze` every value of `typeof` object/function that is not a
`Buffer`, skipping the keys listed in `omit`. -/
def freezeFields (omits : List String) : JSProps → JSProps
  | [] => []
  | (k, e, v) :: rest =>
    match k with
    | .str s =>
      if e && !(omits.contains s) && typeofObjOrFn v && !(isBuffer v) then
        (k, e, freezeTop v) :: freezeFields omits rest
      else
        (k, e, v) :: freezeFields omits rest
    | .sym _ => (k, e, v) :: freezeFields omits rest

/-- Phase 2 of `hideAndFreeze` (part_000 lines 49-52): for every own symbol
key, `Object.defineProperty(obj, symbol, { enumerable: false })` and then
`Object.freeze(obj[symbol])`.  Redefining a property of a frozen object is a
`TypeError` when it would change the property's attributes (enumerability
`true` → `false`); redefining with unchanged attributes is permitted.
The `Object.freeze(obj[symbol])` call is unguarded, so it throws a
`TypeError` of its own when the symbol-keyed value is a non-empty `Buffer`.
`none` models either thrown `TypeError`. -/
def hideSymbols (frozenTop : Bool) : JSProps → Option JSProps
  | [] => some []
  | (k, e, v) :: rest =>
    match k with
    | .sym _ =>
      if frozenTop && e then none
      else
        match jsFreeze v with
        | none => none
        | some w => (hideSymbols frozenTop rest).map (fun r => (k, false, w) :: r)
    | .str _ => (hideSymbols frozenTop rest).map (fun r => (k, e, v) :: r)

/-- Embedding of `hideAndFreeze(obj, ...omit)` (part_000 lines 33-56): freeze the
object/function-valued enumerable string-keyed fields (Buffers excepted),
make the symbol-keyed fields non-enumerable and freeze their values, then
`Object.freeze` the top-level object itself.  `none` models a thrown
`TypeError`. -/
def hideAndFreeze (o : JSValue) (omits : List String) : Option JSValue :=
  match o with
  | .obj fz props => (hideSymbols fz (freezeFields omits props)).map (.obj true)
  | .fn fz props => (hideSymbols fz (freezeFields omits props)).map (.fn true)
  | v => some v

/-- Replace the value of key `k` (or append it) in an own-property list. -/
def jsSetProps (k : JSKey) (v : JSValue) : JSProps → JSProps
  | [] => [(k, true, v)]
  | (k', e, v') :: rest =>
    if k' = k then (k', e, v) :: rest else (k', e, v') :: jsSetProps k v rest

/-- Property assignment `o[k] = v`: on a frozen object or function it throws
in strict mode (modelled by `none`) and silently does nothing in sloppy
mode; otherwise it updates or adds the property. -/
def jsSetField (o : JSValue) (k : JSKey) (v : JSValue) : Option JSValue :=
  match o with
  | .obj false ps => some (.obj false (jsSetProps k v ps))
  | .fn false ps => some (.fn false (jsSetProps k v ps))
  | _ => none

/-- Property deletion `delete o[k]`: deleting an existing property of a
frozen object throws in strict mode (`none`); deleting an absent key always
succeeds and changes nothing; on a non-frozen object the property is
removed. -/
def jsDeleteField (o : JSValue) (k : JSKey) : Option JSValue :=
  match o with
  | .obj false ps => some (.obj false (ps.filter (fun p => p.1 ≠ k)))
  | .fn false ps => some (.fn false (ps.filter (fun p => p.1 ≠ k)))
  | .obj true ps => if ps.any (fun p => p.1 = k) then none else some (.obj true ps)
  | .fn true ps => if ps.any (fun p => p.1 = k) then none else some (.fn true ps)
  | _ => none

/-- Sloppy-mode assignment: a rejected write leaves the object unchanged. -/
def jsSetFieldSloppy (o : JSValue) (k : JSKey) (v : JSValue) : JSValue :=
  (jsSetField o k v).getD o

/-- Sloppy-mode deletion: a rejected delete leaves the object unchanged. -/
def jsDeleteFieldSloppy (o : JSValue) (k : JSKey) : JSValue :=
  (jsDeleteField o k).getD o

/-- The own-property list of an object or function value. -/
def jsProps : JSValue → JSProps
  | .obj _ ps => ps
  | .fn _ ps => ps
  | _ => []

/-- The finalization step of the `Carrier` constructor
(part_002 line 313): `hideAndFreeze(this)` with no omitted keys. -/
def Carrier.finalize (o : JSValue) : Option JSValue :=
  hideAndFreeze o []

/-- The finalization step of the `DeliveryService` constructor
(delivery-service.ts line 167): `Object.freeze(this)`. -/
def DeliveryService.finalize (o : JSValue) : JSValue :=
  freezeTop o

/-! ## Part 2: the carrier operation wrappers

Each public method of `Carrier` (part_002 lines 357-549) wraps the
user-supplied function with uniform error handling.  The `Transaction`,
`PickupRequest`, `PickupCancellation`, `LabelSpec`, `RateCriteria` and
`TrackingCriteria` classes and the `error` factory are imported from modules
outside the analysed sources, so they appear here as parameters: the outcome
of each `new X(pojo)` construction is an `Except ε X` value (`Except.error`
modelling a thrown exception), the request-entity types are type variables,
and user-supplied functions return `Except ε β` (`Except.error` modelling a
throw or rejection).  Each wrapper records how many times it invoked the
user-supplied function, so that "user code is never invoked" and "not
invoked a second time" are statable. -/

/-- The two error kinds raised at the invocation boundary
(`ErrorCode.InvalidInput` and `ErrorCode.AppError` in src/errors, outside
the analysed sources). -/
inductive ErrorCode where
  | InvalidInput
  | AppError
deriving DecidableEq, Repr

/-- Modelled from the spec: the `error(code, message, props)` factory of
src/errors is not under src/; per the spec (§7) it builds an error of the
given kind carrying the message, the original cause, and — for application
errors — the transaction's correlation identifier. -/
structure SdkError (ε : Type) where
  code : ErrorCode
  message : String
  originalError : ε
  transactionID : Option String := none
deriving DecidableEq, Repr

/-- Modelled from the spec: the `Transaction` entity of src/common is not
under src/; per the spec (§3, glossary) it is an opaque per-call context
carrying a correlation identifier `id`, constructed (with validation) from
the raw transaction POJO.  Only `id` is read by the wrappers. -/
structure Transaction where
  id : String
deriving DecidableEq, Repr

/-- Outcome of one wrapper invocation: the returned value or thrown
`SdkError`, together with the number of times the user-supplied function
was invoked. -/
structure Invocation (ε γ : Type) where
  result : Except (SdkError ε) γ
  userCalls : Nat
deriving Repr

/-- The raw pickup confirmation returned by a user-supplied `requestPickup`
function: its `shipments` field (possibly absent) plus the remaining fields,
kept abstract as `payload`. -/
structure PickupConfirmationPOJO (σ ρ : Type) where
  shipments : Option (List σ)
  payload : ρ
deriving DecidableEq, Repr

/-- Embedding of
`confirmation.shipments = confirmation.shipments || request.shipments`
(part_002 line 371): when the user-returned confirmation has no `shipments`
value, the wrapper assigns it the `shipments` array of the *raw* request
POJO; an existing (even empty) array is kept, since any array is truthy. -/
def patchShipments {σ ρ : Type} (conf : PickupConfirmationPOJO σ ρ)
    (rawShipments : List σ) : PickupConfirmationPOJO σ ρ :=
  { conf with
    shipments :=
      match conf.shipments with
      | some s => some s
      | none => some rawShipments }

/-- Embedding of `Carrier.requestPickup` (part_002 lines 357-378).
`newTransaction`/`newPickupRequest` are the outcomes of the two entity
constructions in the first `try` block; `userFn` is the user-supplied
function; `newPickupConfirmation` is the outcome of
`new PickupConfirmation(confirmation)`; `rawShipments` is the `shipments`
array of the raw request POJO. -/
def CarrierMethods.requestPickup {ε τ σ ρ γ : Type}
    (newTransaction : Except ε Transaction)
    (newPickupRequest : Except ε τ)
    (rawShipments : List σ)
    (userFn : Transaction → τ → Except ε (PickupConfirmationPOJO σ ρ))
    (newPickupConfirmation : PickupConfirmationPOJO σ ρ → Except ε γ) :
    Invocation ε γ :=
  match newTransaction with
  | .error e =>
    ⟨.error ⟨.InvalidInput, "Invalid input to the requestPickup method.", e, none⟩, 0⟩
  | .ok tx =>
    match newPickupRequest with
    | .error e =>
      ⟨.error ⟨.InvalidInput, "Invalid input to the requestPickup method.", e, none⟩, 0⟩
    | .ok req =>
      match userFn tx req with
      | .error e =>
        ⟨.error ⟨.AppError, "Error in requestPickup method.", e, some tx.id⟩, 1⟩
      | .ok conf =>
        match newPickupConfirmation (patchShipments conf rawShipments) with
        | .error e =>
          ⟨.error ⟨.AppError, "Error in requestPickup method.", e, some tx.id⟩, 1⟩
        | .ok c => ⟨.ok c, 1⟩

/-- The raw pickup cancellation confirmation
(src/types.ts lines 56-80, `PickupCancellationConfirmationConfig`). -/
structure PickupCancellationConfirmationPOJO where
  successful : Bool
  cancellationID : Option String := none
  notes : Option String := none
  customData : Option (List (String × String)) := none
deriving DecidableEq, Repr

/-- Modelled from the spec: the `PickupCancellationConfirmation` entity
class is not under src/ (only its config shape, src/types.ts lines 56-80,
is); per the spec (§4.2) the constructor validates the POJO and copies its
fields into a frozen entity. -/
structure PickupCancellationConfirmation where
  successful : Bool
  cancellationID : Option String
  notes : Option String
  customData : Option (List (String × String))
deriving DecidableEq, Repr

/-- Modelled from the spec: construction of a `PickupCancellationConfirmation`
entity from a well-formed POJO copies the POJO's fields. -/
def PickupCancellationConfirmation.fromPOJO {ε : Type}
    (p : PickupCancellationConfirmationPOJO) :
    Except ε PickupCancellationConfirmation :=
  .ok ⟨p.successful, p.cancellationID, p.notes, p.customData⟩

/-- Embedding of `Carrier.cancelPickup` (part_002 lines 383-405).  The user-supplied
function may resolve with no value (`undefined`/`null`, modelled as `none`),
in which case `confirmation || { successful: true }` substitutes the default
confirmation (part_002 line 398). -/
def CarrierMethods.cancelPickup {ε κ γ : Type}
    (newTransaction : Except ε Transaction)
    (newPickupCancellation : Except ε κ)
    (userFn : Transaction → κ → Except ε (Option PickupCancellationConfirmationPOJO))
    (newConfirmation : PickupCancellationConfirmationPOJO → Except ε γ) :
    Invocation ε γ :=
  match newTransaction with
  | .error e =>
    ⟨.error ⟨.InvalidInput, "Invalid input to the cancelPickup method.", e, none⟩, 0⟩
  | .ok tx =>
    match newPickupCancellation with
    | .error e =>
      ⟨.error ⟨.InvalidInput, "Invalid input to the cancelPickup method.", e, none⟩, 0⟩
    | .ok cancellation =>
      match userFn tx cancellation with
      | .error e =>
        ⟨.error ⟨.AppError, "Error in cancelPickup method.", e, some tx.id⟩, 1⟩
      | .ok conf? =>
        match newConfirmation (conf?.getD { successful := true }) with
        | .error e =>
          ⟨.error ⟨.AppError, "Error in cancelPickup method.", e, some tx.id⟩, 1⟩
        | .ok c => ⟨.ok c, 1⟩

/-- Embedding of `Carrier.createLabel` (part_002 lines 410-430). -/
def CarrierMethods.createLabel {ε lbl ρ γ : Type}
    (newTransaction : Except ε Transaction)
    (newLabelSpec : Except ε lbl)
    (userFn : Transaction → lbl → Except ε ρ)
    (newLabelConfirmation : ρ → Except ε γ) :
    Invocation ε γ :=
  match newTransaction with
  | .error e =>
    ⟨.error ⟨.InvalidInput, "Invalid input to the createLabel method.", e, none⟩, 0⟩
  | .ok tx =>
    match newLabelSpec with
    | .error e =>
      ⟨.error ⟨.InvalidInput, "Invalid input to the createLabel method.", e, none⟩, 0⟩
    | .ok label =>
      match userFn tx label with
      | .error e =>
        ⟨.error ⟨.AppError, "Error in createLabel method.", e, some tx.id⟩, 1⟩
      | .ok conf =>
        match newLabelConfirmation conf with
        | .error e =>
          ⟨.error ⟨.AppError, "Error in createLabel method.", e, some tx.id⟩, 1⟩
        | .ok c => ⟨.ok c, 1⟩

/-- Embedding of `Carrier.voidLabel` (part_002 lines 435-453): a stub that validates the
transaction and then resolves to `undefined` without ever invoking the
user-supplied function. -/
def CarrierMethods.voidLabel {ε : Type}
    (newTransaction : Except ε Transaction) :
    Invocation ε (Option Unit) :=
  match newTransaction with
  | .error e =>
    ⟨.error ⟨.InvalidInput, "Invalid input to the voidLabel method.", e, none⟩, 0⟩
  | .ok _ => ⟨.ok none, 0⟩

/-- Embedding of `Carrier.getRates` (part_002 lines 458-478). -/
def CarrierMethods.getRates {ε crit ρ γ : Type}
    (newTransaction : Except ε Transaction)
    (newRateCriteria : Except ε crit)
    (userFn : Transaction → crit → Except ε ρ)
    (newRateQuote : ρ → Except ε γ) :
    Invocation ε γ :=
  match newTransaction with
  | .error e =>
    ⟨.error ⟨.InvalidInput, "Invalid input to the getRates method.", e, none⟩, 0⟩
  | .ok tx =>
    match newRateCriteria with
    | .error e =>
      ⟨.error ⟨.InvalidInput, "Invalid input to the getRates method.", e, none⟩, 0⟩
    | .ok criteria =>
      match userFn tx criteria with
      | .error e =>
        ⟨.error ⟨.AppError, "Error in getRates method.", e, some tx.id⟩, 1⟩
      | .ok quote =>
        match newRateQuote quote with
        | .error e =>
          ⟨.error ⟨.AppError, "Error in getRates method.", e, some tx.id⟩, 1⟩
        | .ok q => ⟨.ok q, 1⟩

/-- Embedding of `Carrier.getTrackingURL` (part_002 lines 483-503): synchronous; the
user-returned value feeds `url ? new URL(url) : undefined`, so a missing or
empty (falsy) URL yields `undefined` and a `new URL` failure inside the
`try` block is classified as an application error. -/
def CarrierMethods.getTrackingURL {ε crit υ : Type}
    (newTransaction : Except ε Transaction)
    (newTrackingCriteria : Except ε crit)
    (userFn : Transaction → crit → Except ε (Option String))
    (newURL : String → Except ε υ) :
    Invocation ε (Option υ) :=
  match newTransaction with
  | .error e =>
    ⟨.error ⟨.InvalidInput, "Invalid input to the getTrackingURL method.", e, none⟩, 0⟩
  | .ok tx =>
    match newTrackingCriteria with
    | .error e =>
      ⟨.error ⟨.InvalidInput, "Invalid input to the getTrackingURL method.", e, none⟩, 0⟩
    | .ok criteria =>
      match userFn tx criteria with
      | .error e =>
        ⟨.error ⟨.AppError, "Error in getTrackingURL method.", e, some tx.id⟩, 1⟩
      | .ok url? =>
        match url? with
        | none => ⟨.ok none, 1⟩
        | some url =>
          if url = "" then ⟨.ok none, 1⟩
          else
            match newURL url with
            | .error e =>
              ⟨.error ⟨.AppError, "Error in getTrackingURL method.", e, some tx.id⟩, 1⟩
            | .ok u => ⟨.ok (some u), 1⟩

/-- Embedding of `Carrier.track` (part_002 lines 508-526): a stub that validates the
transaction and then resolves to `undefined` without ever invoking the
user-supplied function. -/
def CarrierMethods.track {ε : Type}
    (newTransaction : Except ε Transaction) :
    Invocation ε (Option Unit) :=
  match newTransaction with
  | .error e =>
    ⟨.error ⟨.InvalidInput, "Invalid input to the track method.", e, none⟩, 0⟩
  | .ok _ => ⟨.ok none, 0⟩

/-- Embedding of `Carrier.createManifest` (part_002 lines 531-549): a stub that validates
the transaction and then resolves to `undefined` without ever invoking the
user-supplied function. -/
def CarrierMethods.createManifest {ε : Type}
    (newTransaction : Except ε Transaction) :
    Invocation ε (Option Unit) :=
  match newTransaction with
  | .error e =>
    ⟨.error ⟨.InvalidInput, "Invalid input to the createManifest method.", e, none⟩, 0⟩
  | .ok _ => ⟨.ok none, 0⟩

/-- An invocation failed at the input-validation boundary: it raised
`InvalidInput` with the given message and original cause, and the
user-supplied function was never invoked. -/
def invalidInputOutcome {ε γ : Type} (inv : Invocation ε γ)
    (msg : String) (cause : ε) : Prop :=
  inv.result = .error ⟨.InvalidInput, msg, cause, none⟩ ∧ inv.userCalls = 0

/-- An invocation failed after input validation: it raised `AppError` with
the given message, original cause and transaction correlation identifier,
and the user-supplied function was invoked exactly once. -/
def appErrorOutcome {ε γ : Type} (inv : Invocation ε γ)
    (msg : String) (cause : ε) (txID : String) : Prop :=
  inv.result = .error ⟨.AppError, msg, cause, some txID⟩ ∧ inv.userCalls = 1

/-! ## Part 3: the typed `Carrier` entity — constructor, `toJSON`, capabilities

The `Carrier` constructor (part_002 lines 286-316) and `toJSON`
(lines 330-350) are embedded as pure functions on a typed model of the
entity.  The `DeliveryService`, `PickupService` and `Localization` classes
used for the child entities live outside the analysed sources, so their
types and constructors/serializers are parameters (`δp`/`δ` etc.), as is
the `new URL` parser of the host runtime (`urlNorm`).  The eight
user-supplied operations have the abstract type `μ`. -/

/-- The raw carrier configuration POJO (`CarrierPOJO`), as consumed by the
`Carrier` constructor and produced by `Carrier.toJSON`.  `δp`, `πp` and `Λ`
are the POJO types of delivery services, pickup services and the
localization table; `μ` is the type of user-supplied methods. -/
structure CarrierPOJO (δp πp μ Λ : Type) where
  id : String
  name : String
  description : Option String := none
  websiteURL : String
  logo : String
  deliveryServices : List δp
  pickupServices : Option (List πp) := none
  localization : Option Λ := none
  requestPickup : Option μ := none
  cancelPickup : Option μ := none
  createLabel : Option μ := none
  voidLabel : Option μ := none
  getRates : Option μ := none
  getTrackingURL : Option μ := none
  track : Option μ := none
  createManifest : Option μ := none

/-- A parsed `URL` object, identified by its href string. -/
structure URLObj where
  href : String
deriving DecidableEq, Repr

/-- JavaScript `x || dflt` on an optional string: `undefined` and the empty
string are falsy. -/
def jsOrString (x : Option String) (dflt : String) : String :=
  match x with
  | none => dflt
  | some s => if s = "" then dflt else s

/-- The constructed `Carrier` entity.  The public fields mirror
part_002 lines 121-151; the `localization` table and the eight user-supplied
operations are the private fields stored under the `_private` symbol
(lines 100-112). -/
structure Carrier (δ π μ Λ : Type) where
  id : String
  name : String
  description : String
  websiteURL : URLObj
  logo : String
  deliveryServices : List δ
  pickupServices : List π
  localization : Λ
  requestPickup : Option μ
  cancelPickup : Option μ
  createLabel : Option μ
  voidLabel : Option μ
  getRates : Option μ
  getTrackingURL : Option μ
  track : Option μ
  createManifest : Option μ

/-- The `Carrier` constructor (part_002 lines 286-316).

* `urlNorm` is the parsing/normalization performed by the host runtime's
  `new URL` (line 290);
* `emptyLoc` is the empty localization table, substituted by
  `pojo.localization || {}` (line 298);
* `dsCtor`/`psCtor` are the child-entity constructors
  `new DeliveryService(svc, app)` / `new PickupService(svc, app)`
  (lines 292-294), whose classes are outside the analysed sources;
* each user-defined method is stored as a private field, and the
  corresponding public class method is shadowed by an own `undefined`
  property when the configuration omits it (lines 300-309).

The `app` reference-registry side effect (line 315) is outside the entity
and not modelled. -/
def Carrier.construct {δp πp δ π μ Λ : Type}
    (urlNorm : String → String) (emptyLoc : Λ)
    (dsCtor : δp → δ) (psCtor : πp → π)
    (pojo : CarrierPOJO δp πp μ Λ) : Carrier δ π μ Λ :=
  { id := pojo.id
    name := pojo.name
    description := jsOrString pojo.description ""
    websiteURL := ⟨urlNorm pojo.websiteURL⟩
    logo := pojo.logo
    deliveryServices := pojo.deliveryServices.map dsCtor
    pickupServices :=
      match pojo.pickupServices with
      | some svcs => svcs.map psCtor
      | none => []
    localization := pojo.localization.getD emptyLoc
    requestPickup := pojo.requestPickup
    cancelPickup := pojo.cancelPickup
    createLabel := pojo.createLabel
    voidLabel := pojo.voidLabel
    getRates := pojo.getRates
    getTrackingURL := pojo.getTrackingURL
    track := pojo.track
    createManifest := pojo.createManifest }

/-- Embedding of `Carrier.toJSON` with no locale argument (part_002 lines 330-350, with
`locale = undefined`, so `localizedValues` is `{}`): spreads the enumerable
public fields (the private symbol field was made non-enumerable by
`hideAndFreeze`), serializes the child entities with their own `toJSON`
(`dsToJSON`/`psToJSON`, outside the analysed sources), and re-emits the
stored user-defined methods and the localization table.  The spread carries
the `websiteURL` `URL` object, which re-construction feeds back through
`new URL`; this round trip is represented by its href string. -/
def Carrier.toJSON {δp πp δ π μ Λ : Type}
    (dsToJSON : δ → δp) (psToJSON : π → πp)
    (c : Carrier δ π μ Λ) : CarrierPOJO δp πp μ Λ :=
  { id := c.id
    name := c.name
    description := some c.description
    websiteURL := c.websiteURL.href
    logo := c.logo
    deliveryServices := c.deliveryServices.map dsToJSON
    pickupServices := some (c.pickupServices.map psToJSON)
    localization := some c.localization
    requestPickup := c.requestPickup
    cancelPickup := c.cancelPickup
    createLabel := c.createLabel
    voidLabel := c.voidLabel
    getRates := c.getRates
    getTrackingURL := c.getTrackingURL
    track := c.track
    createManifest := c.createManifest }

/-- What property lookup finds for a carrier operation: nothing, or a
callable. -/
inductive Capability (W : Type) where
  | absent
  | callable (w : W)
deriving DecidableEq, Repr

/-- JavaScript property lookup for one operation on a constructed carrier
(part_002 lines 300-309): when the configuration omitted the method, the
constructor wrote an own `undefined` property that shadows the prototype
wrapper, so lookup finds no callable; otherwise lookup finds the prototype
wrapper closed over the stored user function. -/
def capabilityOf {μ W : Type} (stored : Option μ) (wrapper : μ → W) :
    Capability W :=
  match stored with
  | none => .absent
  | some f => .callable (wrapper f)

/-! ## Part 4: `DeliveryService.serviceArea` -/

/-- The `ServiceArea` enum values used by the service-area computation
(src/enums, outside the analysed sources). -/
inductive ServiceArea where
  | Regional
  | Domestic
  | Worldwide
deriving DecidableEq, Repr

/-- The fields of a constructed `Packaging` entity read by
`DeliveryService`'s helper getters. -/
structure Packaging where
  serviceArea : ServiceArea
  isConsolidator : Bool
deriving DecidableEq, Repr

/-- The loop body of the `serviceArea` getter
(delivery-service.ts lines 112-128): crawl the packaging list, returning
`Worldwide` as soon as it is seen, upgrading the running maximum from
`Regional` to `Domestic` when a `Domestic` entry is seen. -/
def serviceAreaLoop : List Packaging → ServiceArea → ServiceArea
  | [], maxArea => maxArea
  | p :: rest, maxArea =>
    if p.serviceArea = ServiceArea.Worldwide then ServiceArea.Worldwide
    else if p.serviceArea = ServiceArea.Domestic then
      serviceAreaLoop rest ServiceArea.Domestic
    else serviceAreaLoop rest maxArea

/-- The fields of a constructed `DeliveryService` entity that its
`serviceArea` getter reads. -/
structure DeliveryService where
  packaging : List Packaging
deriving DecidableEq, Repr

/-- The `serviceArea` getter (delivery-service.ts lines 112-128), starting
the crawl with `maxArea = Regional`. -/
def DeliveryService.serviceArea (svc : DeliveryService) : ServiceArea :=
  serviceAreaLoop svc.packaging ServiceArea.Regional

/-! ## Helper lemmas about freezing -/

theorem freezeTop_freezeTop (v : JSValue) : freezeTop (freezeTop v) = freezeTop v := by
  cases v with
  | buffer f bs => cases bs <;> rfl
  | undef => rfl
  | prim s => rfl
  | obj f ps => rfl
  | fn f ps => rfl

theorem typeofObjOrFn_freezeTop (v : JSValue) :
    typeofObjOrFn (freezeTop v) = typeofObjOrFn v := by
  cases v with
  | buffer f bs => cases bs <;> rfl
  | undef => rfl
  | prim s => rfl
  | obj f ps => rfl
  | fn f ps => rfl

theorem isBuffer_freezeTop (v : JSValue) : isBuffer (freezeTop v) = isBuffer v := by
  cases v with
  | buffer f bs => cases bs <;> rfl
  | undef => rfl
  | prim s => rfl
  | obj f ps => rfl
  | fn f ps => rfl

theorem isFrozenVal_freezeTop (v : JSValue) (h : isBuffer v = false) :
    isFrozenVal (freezeTop v) = true := by
  cases v <;> simp_all [isBuffer, freezeTop, jsFreeze, isFrozenVal]

theorem jsFreeze_some_frozen (v v' : JSValue) (h : jsFreeze v = some v') :
    isFrozenVal v' = true := by
  cases v with
  | undef => simp only [jsFreeze] at h; cases h; rfl
  | prim s => simp only [jsFreeze] at h; cases h; rfl
  | obj f ps => simp only [jsFreeze] at h; cases h; rfl
  | fn f ps => simp only [jsFreeze] at h; cases h; rfl
  | buffer f bs =>
    cases bs with
    | nil => simp only [jsFreeze] at h; cases h; rfl
    | cons b tl => exact absurd h (by simp [jsFreeze])

theorem jsFreeze_idem (v v' : JSValue) (h : jsFreeze v = some v') :
    jsFreeze v' = some v' := by
  cases v with
  | undef => simp only [jsFreeze] at h; cases h; rfl
  | prim s => simp only [jsFreeze] at h; cases h; rfl
  | obj f ps => simp only [jsFreeze] at h; cases h; rfl
  | fn f ps => simp only [jsFreeze] at h; cases h; rfl
  | buffer f bs =>
    cases bs with
    | nil => simp only [jsFreeze] at h; cases h; rfl
    | cons b tl => exact absurd h (by simp [jsFreeze])

theorem freezeFields_idem (om : List String) (ps : JSProps) :
    freezeFields om (freezeFields om ps) = freezeFields om ps := by
  induction ps with
  | nil => rfl
  | cons p rest ih =>
    obtain ⟨k, e, v⟩ := p
    cases k with
    | str s =>
      by_cases h : (e && !(om.contains s) && typeofObjOrFn v && !(isBuffer v)) = true
      · simp only [freezeFields, h, if_pos, typeofObjOrFn_freezeTop, isBuffer_freezeTop,
          freezeTop_freezeTop, ih]
      · simp only [freezeFields, h, if_neg, Bool.not_eq_true, ih]
    | sym i => simp [freezeFields, ih]

theorem hideSymbols_idem (fz b : Bool) (ps qs : JSProps)
    (h : hideSymbols fz ps = some qs) : hideSymbols b qs = some qs := by
  induction ps generalizing qs with
  | nil =>
    simp [hideSymbols] at h
    subst h
    rfl
  | cons p rest ih =>
    obtain ⟨k, e, v⟩ := p
    cases k with
    | sym i =>
      by_cases hc : (fz && e) = true
      · simp [hideSymbols, hc] at h
      · cases hjf : jsFreeze v with
        | none => simp [hideSymbols, hc, hjf] at h
        | some w =>
          simp only [hideSymbols, hc, if_neg, Bool.not_eq_true, hjf,
            Option.map_eq_some'] at h
          obtain ⟨qs', hqs', hcons⟩ := h
          subst hcons
          simp [hideSymbols, ih _ hqs', jsFreeze_idem v w hjf]
    | str s =>
      simp only [hideSymbols, Option.map_eq_some'] at h
      obtain ⟨qs', hqs', hcons⟩ := h
      subst hcons
      simp [hideSymbols, ih _ hqs']

theorem freezeFields_fixed_hideSymbols (om : List String) (fz : Bool) (ps qs : JSProps)
    (hfix : freezeFields om ps = ps) (h : hideSymbols fz ps = some qs) :
    freezeFields om qs = qs := by
  induction ps generalizing qs with
  | nil =>
    simp [hideSymbols] at h
    subst h
    rfl
  | cons p rest ih =>
    obtain ⟨k, e, v⟩ := p
    cases k with
    | str s =>
      simp only [hideSymbols, Option.map_eq_some'] at h
      obtain ⟨qs', hqs', hcons⟩ := h
      subst hcons
      by_cases hc : (e && !(om.contains s) && typeofObjOrFn v && !(isBuffer v)) = true
      · simp only [freezeFields, hc, if_pos, List.cons.injEq, Prod.mk.injEq] at hfix
        obtain ⟨⟨-, -, hv⟩, hrest⟩ := hfix
        simp only [freezeFields, hc, if_pos, hv, ih qs' hrest hqs']
      · simp only [freezeFields, hc, if_neg, Bool.not_eq_true, List.cons.injEq] at hfix
        simp only [freezeFields, hc, if_neg, Bool.not_eq_true]
        simp [ih qs' hfix.2 hqs']
    | sym i =>
      by_cases hc : (fz && e) = true
      · simp [hideSymbols, hc] at h
      · cases hjf : jsFreeze v with
        | none => simp [hideSymbols, hc, hjf] at h
        | some w =>
          simp only [hideSymbols, hc, if_neg, Bool.not_eq_true, hjf,
            Option.map_eq_some'] at h
          obtain ⟨qs', hqs', hcons⟩ := h
          subst hcons
          simp only [freezeFields, List.cons.injEq] at hfix
          simp [freezeFields, ih qs' hfix.2 hqs']

theorem mem_freezeFields_frozen (om : List String) (ps : JSProps) (s : String)
    (e : Bool) (v : JSValue) (hmem : (JSKey.str s, e, v) ∈ freezeFields om ps)
    (he : e = true) (hnomit : om.contains s = false)
    (hty : typeofObjOrFn v = true) (hbuf : isBuffer v = false) :
    isFrozenVal v = true := by
  induction ps with
  | nil => simp [freezeFields] at hmem
  | cons p rest ih =>
    obtain ⟨k, e₀, v₀⟩ := p
    cases k with
    | str s₀ =>
      by_cases hc : (e₀ && !(om.contains s₀) && typeofObjOrFn v₀ && !(isBuffer v₀)) = true
      · simp only [freezeFields, hc, if_pos, List.mem_cons, Prod.mk.injEq] at hmem
        rcases hmem with ⟨hk, he₀, hv⟩ | hmem
        · subst hv
          exact isFrozenVal_freezeTop v₀ (by simpa [isBuffer_freezeTop] using hbuf)
        · exact ih hmem
      · simp only [freezeFields, hc, if_neg, Bool.not_eq_true, List.mem_cons,
          Prod.mk.injEq] at hmem
        rcases hmem with ⟨hk, he₀, hv⟩ | hmem
        · exfalso
          injection hk with hs
          subst hs he₀ hv he
          simp [hnomit, hty, hbuf] at hc
          simp at hnomit
          exact hnomit hc
        · exact ih hmem
    | sym i =>
      simp only [freezeFields, List.mem_cons, Prod.mk.injEq] at hmem
      rcases hmem with ⟨hk, -, -⟩ | hmem
      · exact absurd hk (by simp)
      · exact ih hmem

theorem mem_hideSymbols_str (fz : Bool) (ps qs : JSProps) (s : String)
    (e : Bool) (v : JSValue) (h : hideSymbols fz ps = some qs)
    (hmem : (JSKey.str s, e, v) ∈ qs) : (JSKey.str s, e, v) ∈ ps := by
  induction ps generalizing qs with
  | nil =>
    simp [hideSymbols] at h
    subst h
    simp at hmem
  | cons p rest ih =>
    obtain ⟨k, e₀, v₀⟩ := p
    cases k with
    | sym i =>
      by_cases hc : (fz && e₀) = true
      · simp [hideSymbols, hc] at h
      · cases hjf : jsFreeze v₀ with
        | none => simp [hideSymbols, hc, hjf] at h
        | some w =>
          simp only [hideSymbols, hc, if_neg, Bool.not_eq_true, hjf,
            Option.map_eq_some'] at h
          obtain ⟨qs', hqs', hcons⟩ := h
          subst hcons
          simp only [List.mem_cons, Prod.mk.injEq] at hmem
          rcases hmem with ⟨hk, -, -⟩ | hmem
          · exact absurd hk (by simp)
          · exact List.mem_cons_of_mem _ (ih qs' hqs' hmem)
    | str s₀ =>
      simp only [hideSymbols, Option.map_eq_some'] at h
      obtain ⟨qs', hqs', hcons⟩ := h
      subst hcons
      simp only [List.mem_cons] at hmem
      rcases hmem with hmem | hmem
      · exact hmem ▸ List.mem_cons_self _ _
      · exact List.mem_cons_of_mem _ (ih qs' hqs' hmem)

theorem mem_hideSymbols_sym (fz : Bool) (ps qs : JSProps) (i : Nat)
    (e : Bool) (v : JSValue) (h : hideSymbols fz ps = some qs)
    (hmem : (JSKey.sym i, e, v) ∈ qs) :
    e = false ∧ isFrozenVal v = true := by
  induction ps generalizing qs with
  | nil =>
    simp [hideSymbols] at h
    subst h
    simp at hmem
  | cons p rest ih =>
    obtain ⟨k, e₀, v₀⟩ := p
    cases k with
    | sym i₀ =>
      by_cases hc : (fz && e₀) = true
      · simp [hideSymbols, hc] at h
      · cases hjf : jsFreeze v₀ with
        | none => simp [hideSymbols, hc, hjf] at h
        | some w =>
          simp only [hideSymbols, hc, if_neg, Bool.not_eq_true, hjf,
            Option.map_eq_some'] at h
          obtain ⟨qs', hqs', hcons⟩ := h
          subst hcons
          simp only [List.mem_cons, Prod.mk.injEq] at hmem
          rcases hmem with ⟨-, he, hv⟩ | hmem
          · refine ⟨he, ?_⟩
            rw [hv]
            exact jsFreeze_some_frozen v₀ w hjf
          · exact ih qs' hqs' hmem
    | str s₀ =>
      simp only [hideSymbols, Option.map_eq_some'] at h
      obtain ⟨qs', hqs', hcons⟩ := h
      subst hcons
      simp only [List.mem_cons, Prod.mk.injEq] at hmem
      rcases hmem with ⟨hk, -, -⟩ | hmem
      · exact absurd hk (by simp)
      · exact ih qs' hqs' hmem

/-! ## Claim theorems -/

/-- C7: `hideAndFreeze` is idempotent — applying it (with the same omitted
keys) to an object it has already processed does not throw and returns the
object with every property value, enumerability flag and frozen flag
unchanged. -/
theorem hideAndFreeze_idempotent (o : JSValue) (om : List String) (o' : JSValue)
    (h : hideAndFreeze o om = some o') : hideAndFreeze o' om = some o' := by
  cases o with
  | obj fz ps =>
    simp only [hideAndFreeze, Option.map_eq_some'] at h
    obtain ⟨qs, hqs, rfl⟩ := h
    have h1 : freezeFields om qs = qs :=
      freezeFields_fixed_hideSymbols om fz _ qs (freezeFields_idem om ps) hqs
    have h2 : hideSymbols true qs = some qs := hideSymbols_idem fz true _ qs hqs
    simp [hideAndFreeze, h1, h2]
  | fn fz ps =>
    simp only [hideAndFreeze, Option.map_eq_some'] at h
    obtain ⟨qs, hqs, rfl⟩ := h
    have h1 : freezeFields om qs = qs :=
      freezeFields_fixed_hideSymbols om fz _ qs (freezeFields_idem om ps) hqs
    have h2 : hideSymbols true qs = some qs := hideSymbols_idem fz true _ qs hqs
    simp [hideAndFreeze, h1, h2]
  | undef =>
    simp [hideAndFreeze] at h
    subst h
    rfl
  | prim s =>
    simp [hideAndFreeze] at h
    subst h
    rfl
  | buffer f bs =>
    simp [hideAndFreeze] at h
    subst h
    rfl

/-- Witness for C7: a concrete object with an unfrozen object-valued field
and an enumerable symbol-keyed field; `hideAndFreeze` processes it once, and
a second application returns it unchanged. -/
theorem hideAndFreeze_idempotent_witness :
    hideAndFreeze
        (.obj false [(.str "a", true, .obj false []), (.sym 0, true, .prim "x")]) []
      = some (.obj true [(.str "a", true, .obj true []), (.sym 0, false, .prim "x")])
    ∧ hideAndFreeze
        (.obj true [(.str "a", true, .obj true []), (.sym 0, false, .prim "x")]) []
      = some (.obj true [(.str "a", true, .obj true []), (.sym 0, false, .prim "x")]) :=
  ⟨rfl, hideAndFreeze_idempotent
    (.obj false [(.str "a", true, .obj false []), (.sym 0, true, .prim "x")]) []
    (.obj true [(.str "a", true, .obj true []), (.sym 0, false, .prim "x")]) rfl⟩

/-- C6 counterexample: a `Buffer`-valued enumerable field has `typeof`
`"object"` but is left unfrozen by `hideAndFreeze`, so it is not the case
that every object- or function-valued enumerable top-level field is frozen
afterwards. -/
theorem hideAndFreeze_buffer_not_frozen :
    hideAndFreeze (.obj false [(.str "data", true, .buffer false [1, 2, 3])]) []
      = some (.obj true [(.str "data", true, .buffer false [1, 2, 3])])
    ∧ typeofObjOrFn (.buffer false [1, 2, 3]) = true
    ∧ isFrozenVal (.buffer false [1, 2, 3]) = false :=
  ⟨rfl, rfl, rfl⟩

/-- C6 (amended): for every object passed to `hideAndFreeze` with no omitted
keys on which it completes, afterwards every object- or function-valued
enumerable string-keyed field, Buffers excepted, is frozen; every
symbol-keyed field is non-enumerable with its value frozen (the unguarded
`Object.freeze(obj[symbol])` throws on a non-empty Buffer value, so a
completed run leaves every symbol-keyed value frozen); and the top-level
object itself is frozen, so field addition and reassignment are rejected. -/
theorem hideAndFreeze_postconditions (fz : Bool) (ps : JSProps) (o' : JSValue)
    (h : hideAndFreeze (.obj fz ps) [] = some o') :
    isFrozenVal o' = true
    ∧ (∀ k v, jsSetField o' k v = none)
    ∧ (∀ s e v, (JSKey.str s, e, v) ∈ jsProps o' → e = true →
        typeofObjOrFn v = true → isBuffer v = false → isFrozenVal v = true)
    ∧ (∀ i e v, (JSKey.sym i, e, v) ∈ jsProps o' →
        e = false ∧ isFrozenVal v = true) := by
  simp only [hideAndFreeze, Option.map_eq_some'] at h
  obtain ⟨qs, hqs, rfl⟩ := h
  refine ⟨rfl, fun k v => rfl, ?_, ?_⟩
  · intro s e v hmem he hty hbuf
    exact mem_freezeFields_frozen [] ps s e v
      (mem_hideSymbols_str fz _ qs s e v hqs hmem) he rfl hty hbuf
  · intro i e v hmem
    exact mem_hideSymbols_sym fz _ qs i e v hqs hmem

/-- Witness for C6: the amended postconditions evaluated on a concrete
object with an object-valued public field and a symbol-keyed private
field. -/
theorem hideAndFreeze_postconditions_witness :
    isFrozenVal (.obj true [(.str "a", true, .obj true []), (.sym 3, false, .prim "p")]) = true
    ∧ (∀ k v, jsSetField
        (.obj true [(.str "a", true, .obj true []), (.sym 3, false, .prim "p")]) k v = none)
    ∧ (∀ s e v,
        (JSKey.str s, e, v) ∈
          jsProps (.obj true [(.str "a", true, .obj true []), (.sym 3, false, .prim "p")]) →
        e = true → typeofObjOrFn v = true → isBuffer v = false → isFrozenVal v = true)
    ∧ (∀ i e v,
        (JSKey.sym i, e, v) ∈
          jsProps (.obj true [(.str "a", true, .obj true []), (.sym 3, false, .prim "p")]) →
        e = false ∧ isFrozenVal v = true) :=
  hideAndFreeze_postconditions false
    [(.str "a", true, .obj false []), (.sym 3, true, .prim "p")] _ rfl

/-- C4: after the finalization step of an entity constructor — `Carrier`'s
`hideAndFreeze(this)` or `DeliveryService`'s `Object.freeze(this)` — the
entity is frozen, and any attempt to add, reassign or delete a field is
rejected (strict mode) or fails silently (sloppy mode), leaving the field
set and the field values unchanged. -/
theorem entity_freeze_invariant :
    (∀ (fz : Bool) (ps : JSProps) (o' : JSValue),
      Carrier.finalize (.obj fz ps) = some o' →
      isFrozenVal o' = true
      ∧ (∀ k v, jsSetField o' k v = none ∧ jsSetFieldSloppy o' k v = o')
      ∧ (∀ k, jsDeleteFieldSloppy o' k = o'))
    ∧ (∀ (fz : Bool) (ps : JSProps),
      isFrozenVal (DeliveryService.finalize (.obj fz ps)) = true
      ∧ (∀ k v, jsSetField (DeliveryService.finalize (.obj fz ps)) k v = none
          ∧ jsSetFieldSloppy (DeliveryService.finalize (.obj fz ps)) k v
              = DeliveryService.finalize (.obj fz ps))
      ∧ (∀ k, jsDeleteFieldSloppy (DeliveryService.finalize (.obj fz ps)) k
          = DeliveryService.finalize (.obj fz ps))) := by
  constructor
  · intro fz ps o' h
    simp only [Carrier.finalize, hideAndFreeze, Option.map_eq_some'] at h
    obtain ⟨qs, hqs, rfl⟩ := h
    refine ⟨rfl, fun k v => ⟨rfl, rfl⟩, fun k => ?_⟩
    by_cases h : qs.any (fun p => p.1 = k) = true
    · simp [jsDeleteFieldSloppy, jsDeleteField, h]
    · simp [jsDeleteFieldSloppy, jsDeleteField, h]
  · intro fz ps
    refine ⟨rfl, fun k v => ⟨rfl, rfl⟩, fun k => ?_⟩
    by_cases h : ps.any (fun p => p.1 = k) = true
    · simp [DeliveryService.finalize, freezeTop, jsFreeze, jsDeleteFieldSloppy,
        jsDeleteField, h]
    · simp [DeliveryService.finalize, freezeTop, jsFreeze, jsDeleteFieldSloppy,
        jsDeleteField, h]

/-- Witness for C4: a concrete carrier-like object is finalized; adding a
fresh field, reassigning the existing field and deleting it are all
rejected, and the sloppy-mode attempts leave the object unchanged. -/
theorem entity_freeze_invariant_witness :
    isFrozenVal (.obj true [(.str "id", true, .prim "abc")]) = true
    ∧ jsSetField (.obj true [(.str "id", true, .prim "abc")]) (.str "id") (.prim "zzz") = none
    ∧ jsSetFieldSloppy (.obj true [(.str "id", true, .prim "abc")]) (.str "extra") (.prim "new")
        = .obj true [(.str "id", true, .prim "abc")]
    ∧ jsDeleteFieldSloppy (.obj true [(.str "id", true, .prim "abc")]) (.str "id")
        = .obj true [(.str "id", true, .prim "abc")] := by
  have h := entity_freeze_invariant.1 false [(.str "id", true, .prim "abc")]
    (.obj true [(.str "id", true, .prim "abc")]) rfl
  exact ⟨h.1, (h.2.1 (.str "id") (.prim "zzz")).1,
    (h.2.1 (.str "extra") (.prim "new")).2, h.2.2 (.str "id")⟩

/-- C1: in every carrier operation wrapper, if constructing the typed
`Transaction` fails, or the transaction is fine but constructing the typed
request entity fails, the wrapper raises an error of kind `InvalidInput`
carrying the original cause, and the user-supplied function is never
invoked. -/
theorem wrappers_invalid_input
    {ε τ σ ρ α κ β L M N R S T U υ : Type}
    (e : ε) (tx : Transaction) (raw : List σ)
    (uRP : Transaction → τ → Except ε (PickupConfirmationPOJO σ ρ))
    (cRP : PickupConfirmationPOJO σ ρ → Except ε α)
    (rRP : Except ε τ)
    (uCP : Transaction → κ → Except ε (Option PickupCancellationConfirmationPOJO))
    (cCP : PickupCancellationConfirmationPOJO → Except ε β)
    (rCP : Except ε κ)
    (uCL : Transaction → L → Except ε M)
    (cCL : M → Except ε N)
    (rCL : Except ε L)
    (uGR : Transaction → R → Except ε S)
    (cGR : S → Except ε U)
    (rGR : Except ε R)
    (uTU : Transaction → T → Except ε (Option String))
    (cTU : String → Except ε υ)
    (rTU : Except ε T) :
    invalidInputOutcome (CarrierMethods.requestPickup (.error e) rRP raw uRP cRP)
      "Invalid input to the requestPickup method." e
    ∧ invalidInputOutcome (CarrierMethods.requestPickup (.ok tx) (.error e) raw uRP cRP)
      "Invalid input to the requestPickup method." e
    ∧ invalidInputOutcome (CarrierMethods.cancelPickup (.error e) rCP uCP cCP)
      "Invalid input to the cancelPickup method." e
    ∧ invalidInputOutcome (CarrierMethods.cancelPickup (.ok tx) (.error e) uCP cCP)
      "Invalid input to the cancelPickup method." e
    ∧ invalidInputOutcome (CarrierMethods.createLabel (.error e) rCL uCL cCL)
      "Invalid input to the createLabel method." e
    ∧ invalidInputOutcome (CarrierMethods.createLabel (.ok tx) (.error e) uCL cCL)
      "Invalid input to the createLabel method." e
    ∧ invalidInputOutcome (CarrierMethods.getRates (.error e) rGR uGR cGR)
      "Invalid input to the getRates method." e
    ∧ invalidInputOutcome (CarrierMethods.getRates (.ok tx) (.error e) uGR cGR)
      "Invalid input to the getRates method." e
    ∧ invalidInputOutcome (CarrierMethods.getTrackingURL (.error e) rTU uTU cTU)
      "Invalid input to the getTrackingURL method." e
    ∧ invalidInputOutcome (CarrierMethods.getTrackingURL (.ok tx) (.error e) uTU cTU)
      "Invalid input to the getTrackingURL method." e
    ∧ invalidInputOutcome (CarrierMethods.voidLabel (.error e))
      "Invalid input to the voidLabel method." e
    ∧ invalidInputOutcome (CarrierMethods.track (.error e))
      "Invalid input to the track method." e
    ∧ invalidInputOutcome (CarrierMethods.createManifest (.error e))
      "Invalid input to the createManifest method." e :=
  ⟨⟨rfl, rfl⟩, ⟨rfl, rfl⟩, ⟨rfl, rfl⟩, ⟨rfl, rfl⟩, ⟨rfl, rfl⟩, ⟨rfl, rfl⟩, ⟨rfl, rfl⟩,
   ⟨rfl, rfl⟩, ⟨rfl, rfl⟩, ⟨rfl, rfl⟩, ⟨rfl, rfl⟩, ⟨rfl, rfl⟩, ⟨rfl, rfl⟩⟩

/-- C2: in every carrier operation wrapper, once input validation has
succeeded, a user-supplied function that throws/rejects, or whose returned
value fails output-entity construction, makes the wrapper raise `AppError`
carrying the original cause and the transaction's correlation identifier,
with the user-supplied function invoked exactly once (never a second time);
the three stub wrappers never invoke the user-supplied function at all. -/
theorem wrappers_app_error
    {ε τ σ ρ α κ β L M N R S T U υ : Type}
    (tx : Transaction) (raw : List σ)
    (req : τ) (can : κ) (lab : L) (crt : R) (trk : T)
    (uRP : Transaction → τ → Except ε (PickupConfirmationPOJO σ ρ))
    (cRP : PickupConfirmationPOJO σ ρ → Except ε α)
    (uCP : Transaction → κ → Except ε (Option PickupCancellationConfirmationPOJO))
    (cCP : PickupCancellationConfirmationPOJO → Except ε β)
    (uCL : Transaction → L → Except ε M)
    (cCL : M → Except ε N)
    (uGR : Transaction → R → Except ε S)
    (cGR : S → Except ε U)
    (uTU : Transaction → T → Except ε (Option String))
    (cTU : String → Except ε υ) :
    (∀ e, uRP tx req = .error e →
      appErrorOutcome (CarrierMethods.requestPickup (.ok tx) (.ok req) raw uRP cRP)
        "Error in requestPickup method." e tx.id)
    ∧ (∀ conf e, uRP tx req = .ok conf → cRP (patchShipments conf raw) = .error e →
      appErrorOutcome (CarrierMethods.requestPickup (.ok tx) (.ok req) raw uRP cRP)
        "Error in requestPickup method." e tx.id)
    ∧ (∀ e, uCP tx can = .error e →
      appErrorOutcome (CarrierMethods.cancelPickup (.ok tx) (.ok can) uCP cCP)
        "Error in cancelPickup method." e tx.id)
    ∧ (∀ conf e, uCP tx can = .ok conf →
        cCP (conf.getD { successful := true }) = .error e →
      appErrorOutcome (CarrierMethods.cancelPickup (.ok tx) (.ok can) uCP cCP)
        "Error in cancelPickup method." e tx.id)
    ∧ (∀ e, uCL tx lab = .error e →
      appErrorOutcome (CarrierMethods.createLabel (.ok tx) (.ok lab) uCL cCL)
        "Error in createLabel method." e tx.id)
    ∧ (∀ conf e, uCL tx lab = .ok conf → cCL conf = .error e →
      appErrorOutcome (CarrierMethods.createLabel (.ok tx) (.ok lab) uCL cCL)
        "Error in createLabel method." e tx.id)
    ∧ (∀ e, uGR tx crt = .error e →
      appErrorOutcome (CarrierMethods.getRates (.ok tx) (.ok crt) uGR cGR)
        "Error in getRates method." e tx.id)
    ∧ (∀ q e, uGR tx crt = .ok q → cGR q = .error e →
      appErrorOutcome (CarrierMethods.getRates (.ok tx) (.ok crt) uGR cGR)
        "Error in getRates method." e tx.id)
    ∧ (∀ e, uTU tx trk = .error e →
      appErrorOutcome (CarrierMethods.getTrackingURL (.ok tx) (.ok trk) uTU cTU)
        "Error in getTrackingURL method." e tx.id)
    ∧ (∀ url e, uTU tx trk = .ok (some url) → url ≠ "" → cTU url = .error e →
      appErrorOutcome (CarrierMethods.getTrackingURL (.ok tx) (.ok trk) uTU cTU)
        "Error in getTrackingURL method." e tx.id)
    ∧ (CarrierMethods.voidLabel (ε := ε) (.ok tx)).userCalls = 0
    ∧ (CarrierMethods.track (ε := ε) (.ok tx)).userCalls = 0
    ∧ (CarrierMethods.createManifest (ε := ε) (.ok tx)).userCalls = 0 := by
  refine ⟨?_, ?_, ?_, ?_, ?_, ?_, ?_, ?_, ?_, ?_, rfl, rfl, rfl⟩
  · intro e h
    simp [CarrierMethods.requestPickup, h, appErrorOutcome]
  · intro conf e h1 h2
    simp [CarrierMethods.requestPickup, h1, h2, appErrorOutcome]
  · intro e h
    simp [CarrierMethods.cancelPickup, h, appErrorOutcome]
  · intro conf e h1 h2
    simp [CarrierMethods.cancelPickup, h1, h2, appErrorOutcome]
  · intro e h
    simp [CarrierMethods.createLabel, h, appErrorOutcome]
  · intro conf e h1 h2
    simp [CarrierMethods.createLabel, h1, h2, appErrorOutcome]
  · intro e h
    simp [CarrierMethods.getRates, h, appErrorOutcome]
  · intro q e h1 h2
    simp [CarrierMethods.getRates, h1, h2, appErrorOutcome]
  · intro e h
    simp [CarrierMethods.getTrackingURL, h, appErrorOutcome]
  · intro url e h1 hne h2
    simp [CarrierMethods.getTrackingURL, h1, hne, h2, appErrorOutcome]

/-- Witness for C2: a user function that rejects with cause `"boom"` under a
transaction with correlation identifier `"t1"` makes the `requestPickup`
wrapper raise `AppError` with that cause and identifier, after exactly one
invocation. -/
theorem wrappers_app_error_witness :
    appErrorOutcome
      (CarrierMethods.requestPickup (ε := String) (ρ := Unit) (.ok ⟨"t1"⟩) (.ok ())
        ([] : List Unit)
        (fun _ _ => .error "boom")
        (fun _ => .ok ()))
      "Error in requestPickup method." "boom" "t1" :=
  (wrappers_app_error (υ := Unit) ⟨"t1"⟩ ([] : List Unit) () () () () ()
    (fun _ _ => (.error "boom" : Except String (PickupConfirmationPOJO Unit Unit)))
    (fun _ => (.ok () : Except String Unit))
    (fun _ _ => .ok none) (fun _ => (.ok () : Except String Unit))
    (fun _ _ => (.ok () : Except String Unit)) (fun _ => (.ok () : Except String Unit))
    (fun _ _ => (.ok () : Except String Unit)) (fun _ => (.ok () : Except String Unit))
    (fun _ _ => .ok none) (fun _ => (.ok () : Except String Unit))).1 "boom" rfl

/-- C3: a `cancelPickup` invocation with a valid transaction and valid
cancellation whose user-supplied function resolves with no value yields a
`PickupCancellationConfirmation` with `successful` equal to `true` and no
`cancellationID`, after exactly one invocation of the user function. -/
theorem cancelPickup_default_confirmation {ε κ : Type}
    (tx : Transaction) (can : κ)
    (uCP : Transaction → κ → Except ε (Option PickupCancellationConfirmationPOJO))
    (h : uCP tx can = .ok none) :
    CarrierMethods.cancelPickup (.ok tx) (.ok can) uCP
        (PickupCancellationConfirmation.fromPOJO (ε := ε))
      = ⟨.ok ⟨true, none, none, none⟩, 1⟩ := by
  simp [CarrierMethods.cancelPickup, h, PickupCancellationConfirmation.fromPOJO]

/-- Witness for C3: concrete run of the `cancelPickup` wrapper whose user
function resolves with no value. -/
theorem cancelPickup_default_confirmation_witness :
    CarrierMethods.cancelPickup (ε := String) (.ok ⟨"t2"⟩) (.ok ())
        (fun _ _ => .ok none) PickupCancellationConfirmation.fromPOJO
      = ⟨.ok ⟨true, none, none, none⟩, 1⟩ :=
  cancelPickup_default_confirmation ⟨"t2"⟩ () (fun _ _ => .ok none) rfl

/-- C9: when the user-supplied `requestPickup` function resolves with a
confirmation, the wrapper passes to the output-entity constructor the
confirmation with its `shipments` field replaced — when and only when it was
absent — by the `shipments` array of the raw (unvalidated) request POJO; a
confirmation that already has a `shipments` value keeps it, and no other
field changes. -/
theorem requestPickup_patches_shipments {ε τ σ ρ γ : Type}
    (tx : Transaction) (req : τ) (raw : List σ)
    (uRP : Transaction → τ → Except ε (PickupConfirmationPOJO σ ρ))
    (cRP : PickupConfirmationPOJO σ ρ → Except ε γ)
    (conf : PickupConfirmationPOJO σ ρ)
    (h : uRP tx req = .ok conf) :
    (CarrierMethods.requestPickup (.ok tx) (.ok req) raw uRP cRP
      = match cRP (patchShipments conf raw) with
        | .ok c => ⟨.ok c, 1⟩
        | .error e =>
            ⟨.error ⟨.AppError, "Error in requestPickup method.", e, some tx.id⟩, 1⟩)
    ∧ (conf.shipments = none →
        patchShipments conf raw = { conf with shipments := some raw })
    ∧ (∀ s, conf.shipments = some s → patchShipments conf raw = conf) := by
  refine ⟨?_, ?_, ?_⟩
  · cases hc : cRP (patchShipments conf raw) <;>
      simp [CarrierMethods.requestPickup, h, hc]
  · intro hs
    simp [patchShipments, hs]
  · intro s hs
    obtain ⟨cs, cp⟩ := conf
    simp only at hs
    subst hs
    simp [patchShipments]

/-- Witness for C9: a user confirmation with no `shipments` value gets the
raw request's shipments array. -/
theorem requestPickup_patches_shipments_witness :
    (CarrierMethods.requestPickup (ε := String) (.ok ⟨"t3"⟩) (.ok ()) [7]
        (fun _ _ => .ok ⟨none, ()⟩) (fun c => .ok c)
      = ⟨.ok ⟨some [7], ()⟩, 1⟩)
    ∧ patchShipments (⟨none, ()⟩ : PickupConfirmationPOJO Nat Unit) [7]
        = ⟨some [7], ()⟩ := by
  have h := requestPickup_patches_shipments (ε := String) ⟨"t3"⟩ () [7]
    (fun _ _ => .ok ⟨none, ()⟩) (fun c => .ok c) ⟨none, ()⟩ rfl
  refine ⟨?_, h.2.1 rfl⟩
  rw [h.1]
  rfl

theorem map_roundTrip {A B : Type} (f : A → B) (F : B → A)
    (h : ∀ a, f (F (f a)) = f a) (lst : List A) :
    ((lst.map f).map F).map f = lst.map f := by
  induction lst with
  | nil => rfl
  | cons x xs ih =>
    simp only [List.map_cons, List.cons.injEq]
    exact ⟨h x, ih⟩

theorem jsOrString_stable (x : Option String) :
    jsOrString (some (jsOrString x "")) "" = jsOrString x "" := by
  cases x with
  | none => simp [jsOrString]
  | some s =>
    by_cases hs : s = "" <;> simp [jsOrString, hs]

/-- C5: constructing a `Carrier` from a valid configuration, serializing it
with `toJSON` (no locale), and constructing a new `Carrier` from the
resulting POJO yields an entity equal in all field values to the first.
The hypotheses state the corresponding round-trip facts for the external
collaborators: `new URL` re-parses its own output to the same URL, and the
child `DeliveryService`/`PickupService` entities round-trip through their
own `toJSON` (the same specification property, one level down). -/
theorem carrier_toJSON_roundTrip {δp πp δ π μ Λ : Type}
    (u : String → String) (l : Λ) (f : δp → δ) (g : πp → π)
    (F : δ → δp) (G : π → πp)
    (hu : ∀ s, u (u s) = u s)
    (hf : ∀ d, f (F (f d)) = f d)
    (hg : ∀ p, g (G (g p)) = g p)
    (pojo : CarrierPOJO δp πp μ Λ) :
    Carrier.construct u l f g (Carrier.toJSON F G (Carrier.construct u l f g pojo))
      = Carrier.construct u l f g pojo := by
  obtain ⟨i, n, d, w, lg, ds, ps, loc, m1, m2, m3, m4, m5, m6, m7, m8⟩ := pojo
  simp only [Carrier.construct, Carrier.toJSON, Carrier.mk.injEq, Option.getD_some,
    true_and, and_true]
  refine ⟨jsOrString_stable d, ?_, map_roundTrip f F hf ds, ?_⟩
  · simp [hu]
  · cases ps with
    | none => simp
    | some s0 => simpa using map_roundTrip g G hg s0

/-- Witness for C5: a concrete configuration round-trips, with the external
URL parser and child entities instantiated by identities (which trivially
satisfy the round-trip hypotheses). -/
theorem carrier_toJSON_roundTrip_witness :
    Carrier.construct (fun s => s) () (fun d : Unit => d) (fun p : Unit => p)
        (Carrier.toJSON (fun d : Unit => d) (fun p : Unit => p)
          (Carrier.construct (fun s => s) () (fun d : Unit => d) (fun p : Unit => p)
            ⟨"id-1", "ACME", some "desc", "https://acme.example/", "logo.svg",
              [()], some [()], some (), some (), none, some (), none, none,
              none, none, none⟩))
      = Carrier.construct (fun s => s) () (fun d : Unit => d) (fun p : Unit => p)
          ⟨"id-1", "ACME", some "desc", "https://acme.example/", "logo.svg",
            [()], some [()], some (), some (), none, some (), none, none,
            none, none, none⟩ :=
  carrier_toJSON_roundTrip (fun s => s) () (fun d => d) (fun p => p)
    (fun d => d) (fun p => p) (fun _ => rfl) (fun _ => rfl) (fun _ => rfl) _

theorem capabilityOf_none {μ W : Type} (s : Option μ) (w : μ → W)
    (h : s = none) : capabilityOf s w = .absent := by
  simp [capabilityOf, h]

theorem capabilityOf_some {μ W : Type} (s : Option μ) (w : μ → W) (m : μ)
    (h : s = some m) : capabilityOf s w = .callable (w m) := by
  simp [capabilityOf, h]

/-- C8: for a `Carrier` constructed from a configuration in which a
user-supplied operation is absent, property lookup of that operation on the
entity finds no callable (the constructor shadowed the prototype wrapper
with an own `undefined` property), so callers can check presence before
invoking; when the configuration supplies the operation, lookup finds the
prototype wrapper, a callable. -/
theorem carrier_absent_capability {δp πp δ π μ Λ W : Type}
    (u : String → String) (l : Λ) (f : δp → δ) (g : πp → π)
    (pojo : CarrierPOJO δp πp μ Λ) (w : μ → W) :
    (pojo.requestPickup = none →
      capabilityOf (Carrier.construct u l f g pojo).requestPickup w = .absent)
    ∧ (∀ m, pojo.requestPickup = some m →
      capabilityOf (Carrier.construct u l f g pojo).requestPickup w = .callable (w m))
    ∧ (pojo.cancelPickup = none →
      capabilityOf (Carrier.construct u l f g pojo).cancelPickup w = .absent)
    ∧ (∀ m, pojo.cancelPickup = some m →
      capabilityOf (Carrier.construct u l f g pojo).cancelPickup w = .callable (w m))
    ∧ (pojo.createLabel = none →
      capabilityOf (Carrier.construct u l f g pojo).createLabel w = .absent)
    ∧ (∀ m, pojo.createLabel = some m →
      capabilityOf (Carrier.construct u l f g pojo).createLabel w = .callable (w m))
    ∧ (pojo.voidLabel = none →
      capabilityOf (Carrier.construct u l f g pojo).voidLabel w = .absent)
    ∧ (∀ m, pojo.voidLabel = some m →
      capabilityOf (Carrier.construct u l f g pojo).voidLabel w = .callable (w m))
    ∧ (pojo.getRates = none →
      capabilityOf (Carrier.construct u l f g pojo).getRates w = .absent)
    ∧ (∀ m, pojo.getRates = some m →
      capabilityOf (Carrier.construct u l f g pojo).getRates w = .callable (w m))
    ∧ (pojo.getTrackingURL = none →
      capabilityOf (Carrier.construct u l f g pojo).getTrackingURL w = .absent)
    ∧ (∀ m, pojo.getTrackingURL = some m →
      capabilityOf (Carrier.construct u l f g pojo).getTrackingURL w = .callable (w m))
    ∧ (pojo.track = none →
      capabilityOf (Carrier.construct u l f g pojo).track w = .absent)
    ∧ (∀ m, pojo.track = some m →
      capabilityOf (Carrier.construct u l f g pojo).track w = .callable (w m))
    ∧ (pojo.createManifest = none →
      capabilityOf (Carrier.construct u l f g pojo).createManifest w = .absent)
    ∧ (∀ m, pojo.createManifest = some m →
      capabilityOf (Carrier.construct u l f g pojo).createManifest w = .callable (w m)) :=
  ⟨fun h => capabilityOf_none _ w h, fun m h => capabilityOf_some _ w m h,
   fun h => capabilityOf_none _ w h, fun m h => capabilityOf_some _ w m h,
   fun h => capabilityOf_none _ w h, fun m h => capabilityOf_some _ w m h,
   fun h => capabilityOf_none _ w h, fun m h => capabilityOf_some _ w m h,
   fun h => capabilityOf_none _ w h, fun m h => capabilityOf_some _ w m h,
   fun h => capabilityOf_none _ w h, fun m h => capabilityOf_some _ w m h,
   fun h => capabilityOf_none _ w h, fun m h => capabilityOf_some _ w m h,
   fun h => capabilityOf_none _ w h, fun m h => capabilityOf_some _ w m h⟩

/-- Witness for C8: a carrier configured with `cancelPickup` but without
`requestPickup` exposes a callable for the former and no callable for the
latter. -/
theorem carrier_absent_capability_witness :
    capabilityOf
        (Carrier.construct (fun s => s) () (fun d : Unit => d) (fun p : Unit => p)
          ⟨"id-2", "N", none, "https://n.example/", "logo.svg", [()], none,
            none, none, some (), none, none, none, none, none, none⟩).requestPickup
        (fun m : Unit => m)
      = .absent
    ∧ capabilityOf
        (Carrier.construct (fun s => s) () (fun d : Unit => d) (fun p : Unit => p)
          ⟨"id-2", "N", none, "https://n.example/", "logo.svg", [()], none,
            none, none, some (), none, none, none, none, none, none⟩).cancelPickup
        (fun m : Unit => m)
      = .callable () :=
  ⟨(carrier_absent_capability (fun s => s) () (fun d => d) (fun p => p)
      ⟨"id-2", "N", none, "https://n.example/", "logo.svg", [()], none,
        none, none, some (), none, none, none, none, none, none⟩
      (fun m => m)).1 rfl,
   (carrier_absent_capability (fun s => s) () (fun d => d) (fun p => p)
      ⟨"id-2", "N", none, "https://n.example/", "logo.svg", [()], none,
        none, none, some (), none, none, none, none, none, none⟩
      (fun m => m)).2.2.2.1 () rfl⟩

theorem serviceAreaLoop_worldwide (lst : List Packaging) (a : ServiceArea)
    (h : ∃ p ∈ lst, p.serviceArea = ServiceArea.Worldwide) :
    serviceAreaLoop lst a = ServiceArea.Worldwide := by
  induction lst generalizing a with
  | nil => simp at h
  | cons q rest ih =>
    obtain ⟨p, hp, hP⟩ := h
    by_cases hq : q.serviceArea = ServiceArea.Worldwide
    · simp [serviceAreaLoop, hq]
    · rcases List.mem_cons.mp hp with rfl | hp'
      · exact absurd hP hq
      · by_cases hd : q.serviceArea = ServiceArea.Domestic <;>
          simp [serviceAreaLoop, hq, hd, ih _ ⟨p, hp', hP⟩]

theorem serviceAreaLoop_domestic_acc (lst : List Packaging)
    (hW : ∀ p ∈ lst, p.serviceArea ≠ ServiceArea.Worldwide) :
    serviceAreaLoop lst ServiceArea.Domestic = ServiceArea.Domestic := by
  induction lst with
  | nil => rfl
  | cons q rest ih =>
    have hq : q.serviceArea ≠ ServiceArea.Worldwide := hW q (List.mem_cons_self q rest)
    have ih' := ih fun p hp => hW p (List.mem_cons_of_mem q hp)
    by_cases hd : q.serviceArea = ServiceArea.Domestic <;>
      simp [serviceAreaLoop, hq, hd, ih']

theorem serviceAreaLoop_domestic (lst : List Packaging)
    (hW : ∀ p ∈ lst, p.serviceArea ≠ ServiceArea.Worldwide)
    (hD : ∃ p ∈ lst, p.serviceArea = ServiceArea.Domestic) (a : ServiceArea) :
    serviceAreaLoop lst a = ServiceArea.Domestic := by
  induction lst generalizing a with
  | nil => simp at hD
  | cons q rest ih =>
    have hq : q.serviceArea ≠ ServiceArea.Worldwide := hW q (List.mem_cons_self q rest)
    have hWr : ∀ p ∈ rest, p.serviceArea ≠ ServiceArea.Worldwide :=
      fun p hp => hW p (List.mem_cons_of_mem q hp)
    by_cases hd : q.serviceArea = ServiceArea.Domestic
    · simp [serviceAreaLoop, hq, hd, serviceAreaLoop_domestic_acc rest hWr]
    · obtain ⟨p, hp, hP⟩ := hD
      rcases List.mem_cons.mp hp with rfl | hp'
      · exact absurd hP hd
      · simp [serviceAreaLoop, hq, hd, ih hWr ⟨p, hp', hP⟩]

theorem serviceAreaLoop_regional (lst : List Packaging)
    (hW : ∀ p ∈ lst, p.serviceArea ≠ ServiceArea.Worldwide)
    (hD : ∀ p ∈ lst, p.serviceArea ≠ ServiceArea.Domestic) (a : ServiceArea) :
    serviceAreaLoop lst a = a := by
  induction lst generalizing a with
  | nil => rfl
  | cons q rest ih =>
    have hq : q.serviceArea ≠ ServiceArea.Worldwide := hW q (List.mem_cons_self q rest)
    have hd : q.serviceArea ≠ ServiceArea.Domestic := hD q (List.mem_cons_self q rest)
    have ih' := ih (fun p hp => hW p (List.mem_cons_of_mem q hp))
      (fun p hp => hD p (List.mem_cons_of_mem q hp))
    simp [serviceAreaLoop, hq, hd, ih']

/-- C10: the `serviceArea` getter of a constructed `DeliveryService` returns
`Worldwide` if any of its packaging entries has service area `Worldwide`,
otherwise `Domestic` if any entry has service area `Domestic`, otherwise
`Regional`; it is a pure function of the packaging list. -/
theorem deliveryService_serviceArea_spec (svc : DeliveryService) :
    ((∃ p ∈ svc.packaging, p.serviceArea = ServiceArea.Worldwide) →
      svc.serviceArea = ServiceArea.Worldwide)
    ∧ ((∀ p ∈ svc.packaging, p.serviceArea ≠ ServiceArea.Worldwide) →
       (∃ p ∈ svc.packaging, p.serviceArea = ServiceArea.Domestic) →
      svc.serviceArea = ServiceArea.Domestic)
    ∧ ((∀ p ∈ svc.packaging, p.serviceArea ≠ ServiceArea.Worldwide) →
       (∀ p ∈ svc.packaging, p.serviceArea ≠ ServiceArea.Domestic) →
      svc.serviceArea = ServiceArea.Regional) :=
  ⟨fun h => serviceAreaLoop_worldwide _ _ h,
   fun hW hD => serviceAreaLoop_domestic _ hW hD _,
   fun hW hD => serviceAreaLoop_regional _ hW hD _⟩

/-- Witness for C10: concrete packaging lists exercising all three
outcomes of the `serviceArea` getter. -/
theorem deliveryService_serviceArea_spec_witness :
    DeliveryService.serviceArea
        ⟨[⟨ServiceArea.Regional, false⟩, ⟨ServiceArea.Worldwide, false⟩]⟩
      = ServiceArea.Worldwide
    ∧ DeliveryService.serviceArea ⟨[⟨ServiceArea.Domestic, false⟩]⟩
      = ServiceArea.Domestic
    ∧ DeliveryService.serviceArea ⟨[⟨ServiceArea.Regional, false⟩]⟩
      = ServiceArea.Regional :=
  ⟨(deliveryService_serviceArea_spec _).1
      ⟨⟨ServiceArea.Worldwide, false⟩, by simp, rfl⟩,
   (deliveryService_serviceArea_spec _).2.1 (by decide)
      ⟨⟨ServiceArea.Domestic, false⟩, by simp, rfl⟩,
   (deliveryService_serviceArea_spec _).2.2 (by decide) (by decide)⟩

end IPaaS
